import Mathlib

/-!
Shallow embedding of the version-resolution core and the video-service
restart glue of the tinypilot repository.

The repository sources available are `app/version_test.py` and
`app/video_service.py`.  The module `app/version.py` (exercised by the
tests) is not among the sources, so its operations `local_version` and
`latest_version` are modelled from the specification; `video_service.py`
is embedded directly from its code.

Effects are made explicit: file reads and HTTP responses become input
values describing the outcome of the corresponding I/O, subprocess
invocations become a `behavior` function from command lines to outcomes,
and logging plus invocation order are recorded in a trace.
-/

/-- Outcome of reading and UTF-8-decoding the version file: the file may be
missing (or unreadable), its bytes may fail to decode as UTF-8, or it may
decode to a text `s`. -/
inductive FileReadResult where
  | missing
  | notUtf8
  | content (s : String)

deriving instance DecidableEq for FileReadResult

/-- The two error kinds of the version core (spec section 7): a local
file failure and a remote request failure, each carrying a message. -/
inductive VersionError where
  | fileError (message : String)
  | requestError (message : String)

deriving instance DecidableEq for VersionError

/-- Modelled from the spec: Python `str.strip` as used by the version
resolver, removing leading and trailing whitespace characters. -/
def pyStrip (s : String) : String :=
  String.mk (((s.data.dropWhile Char.isWhitespace).reverse.dropWhile
    Char.isWhitespace).reverse)

/-- Modelled from the spec: `local_version()` of `app/version.py` (absent
from the sources; spec section 4.2).  In debug mode it returns the fixed
dummy identifier without consulting the file; otherwise it reads the
version file, trims whitespace, and fails with a `fileError` when the file
is missing, not valid UTF-8, or empty after trimming. -/
def local_version (debug : Bool) (file : FileReadResult) :
    Except VersionError String :=
  if debug then
    Except.ok "0.0.0-0+aaaaaaa"
  else
    match file with
    | .missing => Except.error (.fileError "Failed to read version file")
    | .notUtf8 =>
        Except.error (.fileError "Version file is not valid UTF-8")
    | .content s =>
        let trimmed := pyStrip s
        if trimmed = "" then
          Except.error (.fileError "Version file is empty")
        else
          Except.ok trimmed

/-- JSON values, as produced by decoding the remote response body. -/
inductive Json where
  | null
  | bool (b : Bool)
  | num (n : Int)
  | str (s : String)
  | arr (elems : List Json)
  | obj (fields : List (String × Json))

/-- Whether a JSON value is a key/value object. -/
def Json.isObj : Json → Bool
  | .obj _ => true
  | _ => false

/-- Key lookup in a decoded JSON object, mirroring Python dict access on
the parsed response. -/
def lookupKey : List (String × Json) → String → Option Json
  | [], _ => none
  | (k, v) :: rest, key => if k = key then some v else lookupKey rest key

/-- Outcome of reading and decoding the HTTP response body: the bytes may
not be valid UTF-8, the text may not parse as JSON, or it parses to a
JSON value. -/
inductive ResponseBody where
  | notUtf8
  | notJson (text : String)
  | json (value : Json)

/-- Outcome of the single HTTP GET issued by the remote checker: either a
2xx response with a body, or a transport/HTTP failure carrying the raw
error body text. -/
inductive HttpResult where
  | success (body : ResponseBody)
  | httpError (errorBody : String)

/-- The Latest Version Record (spec section 3): the values found under the
`version`, `kind` and `data` keys of the decoded response. -/
structure LatestVersionRecord where
  version : Json
  kind : Json
  data : Json

/-- Modelled from the spec: endpoint selection of the remote checker
(spec section 4.3); the spec pins no concrete URLs, so opaque placeholder
names stand for the staging and production endpoints. -/
def versionEndpoint (debug : Bool) : String :=
  if debug then "staging-endpoint" else "production-endpoint"

/-- Modelled from the spec: `latest_version()` of `app/version.py` (absent
from the sources; spec section 4.3).  The debug flag selects the endpoint;
the response outcome is an input.  A transport failure yields a
`requestError` whose message is the fixed text followed by the raw error
body; a successful response must decode (UTF-8, then JSON) to an object
containing all three keys `version`, `kind` and `data`. -/
def latest_version (debug : Bool) (resp : HttpResult) :
    Except VersionError LatestVersionRecord :=
  let _endpoint := versionEndpoint debug
  match resp with
  | .httpError body =>
      Except.error (.requestError
        ("Failed to request latest available version: " ++ body))
  | .success b =>
      match b with
      | .notUtf8 =>
          Except.error (.requestError "Response is not valid UTF-8")
      | .notJson _ =>
          Except.error (.requestError "Response is not valid JSON")
      | .json j =>
          match j with
          | .obj fields =>
              match lookupKey fields "version", lookupKey fields "kind",
                  lookupKey fields "data" with
              | some v, some k, some d => Except.ok ⟨v, k, d⟩
              | _, _, _ =>
                  Except.error
                    (.requestError "Response is missing a required field")
          | _ =>
              Except.error
                (.requestError "Response is not a JSON object")

/-- The bad-response cases of spec section 4.3: non-UTF-8 bytes, invalid
JSON text, a JSON value that is not an object, or an object without the
`version` key. -/
def isBadBody (b : ResponseBody) : Prop :=
  b = ResponseBody.notUtf8 ∨
  (∃ t, b = ResponseBody.notJson t) ∨
  (∃ j, b = ResponseBody.json j ∧ j.isObj = false) ∨
  (∃ fields, b = ResponseBody.json (Json.obj fields) ∧
    lookupKey fields "version" = none)

/-- A command line, as passed to `subprocess.check_output`. -/
abbrev Argv := List String

/-- Severity of a log record emitted by `video_service.py`. -/
inductive LogLevel where
  | info
  | error

deriving instance DecidableEq for LogLevel

/-- A log record: severity and formatted message. -/
structure LogEntry where
  level : LogLevel
  message : String

deriving instance DecidableEq for LogEntry

/-- Outcome of one subprocess invocation: normal completion with output,
or a `CalledProcessError` rendered as a message string. -/
inductive ProcOutcome where
  | success (output : String)
  | failure (err : String)

/-- Observable trace of a run of the video service: the command lines
invoked, in order, and the log records emitted. -/
structure Trace where
  invoked : List Argv
  logs : List LogEntry

deriving instance DecidableEq for Trace

/-- Command line of `app/video_service.py:64` restarting uStreamer. -/
def USTREAMER_RESTART_CMD : Argv :=
  ["/usr/bin/sudo", "/usr/sbin/service", "ustreamer", "restart"]

/-- Command line of `app/video_service.py:85` writing the Janus
configuration. -/
def CONFIGURE_JANUS_CMD : Argv :=
  ["/usr/bin/sudo", "/opt/tinypilot-privileged/scripts/configure-janus"]

/-- Command line of `app/video_service.py:96` restarting Janus. -/
def JANUS_RESTART_CMD : Argv :=
  ["/usr/bin/sudo", "/usr/sbin/service", "janus", "restart"]

/-- Append one log record to the trace (a `logger.info`/`logger.error`
call). -/
def logMsg (lvl : LogLevel) (msg : String) (t : Trace) : Trace :=
  { t with logs := t.logs ++ [⟨lvl, msg⟩] }

/-- `subprocess.check_output`: records the invocation in the trace and
raises (returns `Except.error`) exactly when the given behavior makes the
command fail with `CalledProcessError`. -/
def check_output (behavior : Argv → ProcOutcome) (argv : Argv)
    (t : Trace) : Trace × Except String String :=
  let t2 := { t with invoked := t.invoked ++ [argv] }
  match behavior argv with
  | .success out => (t2, Except.ok out)
  | .failure e => (t2, Except.error e)

/-- `_restart_ustreamer` of `app/video_service.py:57-72`: logs, invokes
the restart command, and on `CalledProcessError` logs the failure and
returns. -/
def _restart_ustreamer (behavior : Argv → ProcOutcome) (t : Trace) :
    Trace × Except String Unit :=
  let t1 := logMsg .info "Triggering ustreamer restart..." t
  match check_output behavior USTREAMER_RESTART_CMD t1 with
  | (t2, Except.error e) =>
      (logMsg .error ("Failed to restart ustreamer: " ++ e) t2,
        Except.ok ())
  | (t2, Except.ok _) =>
      (logMsg .info "Successfully restarted ustreamer" t2, Except.ok ())

/-- `_restart_janus` of `app/video_service.py:75-104`: writes the Janus
configuration, returning early (after logging) if that fails, then
invokes the Janus restart, again logging and swallowing any
`CalledProcessError`. -/
def _restart_janus (behavior : Argv → ProcOutcome) (t : Trace) :
    Trace × Except String Unit :=
  let t1 := logMsg .info "Writing janus configuration..." t
  match check_output behavior CONFIGURE_JANUS_CMD t1 with
  | (t2, Except.error e) =>
      (logMsg .error ("Failed to configure janus: " ++ e) t2,
        Except.ok ())
  | (t2, Except.ok _) =>
      let t3 := logMsg .info "Triggering janus restart..." t2
      match check_output behavior JANUS_RESTART_CMD t3 with
      | (t4, Except.error e) =>
          (logMsg .error ("Failed to restart janus: " ++ e) t4,
            Except.ok ())
      | (t4, Except.ok _) =>
          (logMsg .info "Successfully restarted janus" t4, Except.ok ())

/-- The persisted streaming mode returned by
`db.settings.Settings().get_streaming_mode()`. -/
inductive StreamingMode where
  | mjpeg
  | h264

deriving instance DecidableEq for StreamingMode

/-- `restart` of `app/video_service.py:44-54`: restarts uStreamer, and,
when the persisted streaming mode is H264, also Janus.  The settings read
is modelled as the pure input `mode`. -/
def restart (behavior : Argv → ProcOutcome) (mode : StreamingMode) :
    Trace × Except String Unit :=
  match _restart_ustreamer behavior ⟨[], []⟩ with
  | (t, Except.error e) => (t, Except.error e)
  | (t, Except.ok _) =>
      if mode = StreamingMode.h264 then _restart_janus behavior t
      else (t, Except.ok ())

/-- Behavior under which every subprocess invocation fails. -/
def allFail : Argv → ProcOutcome := fun _ => ProcOutcome.failure "boom"

/-- Behavior under which every subprocess invocation succeeds. -/
def allOk : Argv → ProcOutcome := fun _ => ProcOutcome.success ""

/-- Behavior of `_restart_ustreamer` when the restart command fails: the
error is logged and swallowed. -/
theorem restart_ustreamer_failure_eq (b : Argv → ProcOutcome) (t : Trace)
    (e : String) (h : b USTREAMER_RESTART_CMD = ProcOutcome.failure e) :
    _restart_ustreamer b t =
      ({ invoked := t.invoked ++ [USTREAMER_RESTART_CMD],
         logs := t.logs ++ [⟨.info, "Triggering ustreamer restart..."⟩,
           ⟨.error, "Failed to restart ustreamer: " ++ e⟩] },
        Except.ok ()) := by
  simp [_restart_ustreamer, check_output, logMsg, h]

/-- Behavior of `_restart_ustreamer` when the restart command succeeds. -/
theorem restart_ustreamer_success_eq (b : Argv → ProcOutcome) (t : Trace)
    (o : String) (h : b USTREAMER_RESTART_CMD = ProcOutcome.success o) :
    _restart_ustreamer b t =
      ({ invoked := t.invoked ++ [USTREAMER_RESTART_CMD],
         logs := t.logs ++ [⟨.info, "Triggering ustreamer restart..."⟩,
           ⟨.info, "Successfully restarted ustreamer"⟩] },
        Except.ok ()) := by
  simp [_restart_ustreamer, check_output, logMsg, h]

/-- Behavior of `_restart_janus` when writing the configuration fails:
only the configure command is invoked; the error is logged and
swallowed. -/
theorem restart_janus_cfg_failure_eq (b : Argv → ProcOutcome) (t : Trace)
    (e : String) (h : b CONFIGURE_JANUS_CMD = ProcOutcome.failure e) :
    _restart_janus b t =
      ({ invoked := t.invoked ++ [CONFIGURE_JANUS_CMD],
         logs := t.logs ++ [⟨.info, "Writing janus configuration..."⟩,
           ⟨.error, "Failed to configure janus: " ++ e⟩] },
        Except.ok ()) := by
  simp [_restart_janus, check_output, logMsg, h]

/-- Behavior of `_restart_janus` when configuration succeeds but the
restart command fails: both commands are invoked, in order; the error is
logged and swallowed. -/
theorem restart_janus_restart_failure_eq (b : Argv → ProcOutcome)
    (t : Trace) (o e : String)
    (hc : b CONFIGURE_JANUS_CMD = ProcOutcome.success o)
    (hj : b JANUS_RESTART_CMD = ProcOutcome.failure e) :
    _restart_janus b t =
      ({ invoked := t.invoked ++ [CONFIGURE_JANUS_CMD, JANUS_RESTART_CMD],
         logs := t.logs ++ [⟨.info, "Writing janus configuration..."⟩,
           ⟨.info, "Triggering janus restart..."⟩,
           ⟨.error, "Failed to restart janus: " ++ e⟩] },
        Except.ok ()) := by
  simp [_restart_janus, check_output, logMsg, hc, hj]

/-- Behavior of `_restart_janus` when both commands succeed. -/
theorem restart_janus_success_eq (b : Argv → ProcOutcome) (t : Trace)
    (oc oj : String)
    (hc : b CONFIGURE_JANUS_CMD = ProcOutcome.success oc)
    (hj : b JANUS_RESTART_CMD = ProcOutcome.success oj) :
    _restart_janus b t =
      ({ invoked := t.invoked ++ [CONFIGURE_JANUS_CMD, JANUS_RESTART_CMD],
         logs := t.logs ++ [⟨.info, "Writing janus configuration..."⟩,
           ⟨.info, "Triggering janus restart..."⟩,
           ⟨.info, "Successfully restarted janus"⟩] },
        Except.ok ()) := by
  simp [_restart_janus, check_output, logMsg, hc, hj]

/-- C1 counterexample: the string `" "` is non-empty, yet `local_version`
(debug off) on a version file containing it does not return it trimmed
(it fails, because the trimmed content is empty), refuting the claim as
stated for whitespace-only strings. -/
theorem c1_local_version_counterexample :
    (" " : String) ≠ "" ∧
    local_version false (FileReadResult.content " ") ≠
      Except.ok (pyStrip " ") :=
  ⟨by decide, fun h => Except.noConfusion h⟩

/-- C1 (amended): for every UTF-8 string `s` that is non-empty after
trimming leading and trailing whitespace, if the version file contains
`s` and debug mode is off, then `local_version()` returns `s` trimmed. -/
theorem c1_local_version_strips_whitespace (s : String)
    (h : pyStrip s ≠ "") :
    local_version false (FileReadResult.content s) =
      Except.ok (pyStrip s) := by
  simp [local_version, h]

/-- C1 witness: the test input of
`test_local_version_strips_leading_trailing_whitespace`. -/
theorem c1_local_version_strips_whitespace_witness :
    pyStrip "    1.2.3-16+7a6c812   \n" ≠ "" ∧
    local_version false (FileReadResult.content "    1.2.3-16+7a6c812   \n") =
      Except.ok (pyStrip "    1.2.3-16+7a6c812   \n") :=
  ⟨by decide, c1_local_version_strips_whitespace _ (by decide)⟩

/-- C2: on a transport failure, `latest_version` fails with a request
error whose message is exactly the fixed text
`"Failed to request latest available version: "` followed by the error
body verbatim; in particular body `"bad request"` yields the message of
`test_latest_version_raises_request_error_when_request_fails`. -/
theorem c2_latest_version_request_error_message :
    (∀ (debug : Bool) (body : String),
      latest_version debug (HttpResult.httpError body) =
        Except.error (VersionError.requestError
          ("Failed to request latest available version: " ++ body))) ∧
    latest_version false (HttpResult.httpError "bad request") =
      Except.error (VersionError.requestError
        "Failed to request latest available version: bad request") :=
  ⟨fun _ _ => rfl, rfl⟩

/-- C3: for every decoded JSON object containing the keys `version`,
`kind` and `data`, `latest_version` (debug on or off) returns the record
of exactly those three values; a `null` value under `data` passes through
unchanged. -/
theorem c3_latest_version_success (debug : Bool)
    (fields : List (String × Json)) (v k d : Json)
    (hv : lookupKey fields "version" = some v)
    (hk : lookupKey fields "kind" = some k)
    (hd : lookupKey fields "data" = some d) :
    latest_version debug
        (HttpResult.success (ResponseBody.json (Json.obj fields))) =
      Except.ok ⟨v, k, d⟩ := by
  simp [latest_version, hv, hk, hd]

/-- C3 witness: the response of
`test_latest_version_when_request_is_successful`, with `data: null`. -/
theorem c3_latest_version_success_witness :
    latest_version true
        (HttpResult.success (ResponseBody.json (Json.obj
          [("version", Json.str "1.2.3-16+7a6c812"),
           ("kind", Json.str "automatic"),
           ("data", Json.null)]))) =
      Except.ok ⟨Json.str "1.2.3-16+7a6c812", Json.str "automatic",
        Json.null⟩ :=
  c3_latest_version_success true _ _ _ _ rfl rfl rfl

/-- C4: with debug off, `local_version` fails exactly when the file is
missing, not valid UTF-8, or empty after trimming, and every error it
produces is a `fileError` (never any other error kind). -/
theorem c4_local_version_file_error_cases :
    (∀ f : FileReadResult,
      (∃ m, local_version false f =
          Except.error (VersionError.fileError m)) ↔
        (f = FileReadResult.missing ∨ f = FileReadResult.notUtf8 ∨
          ∃ s, f = FileReadResult.content s ∧ pyStrip s = "")) ∧
    (∀ (f : FileReadResult) (e : VersionError),
      local_version false f = Except.error e →
        ∃ m, e = VersionError.fileError m) := by
  constructor
  · intro f
    constructor
    · rintro ⟨m, hm⟩
      cases f with
      | missing => exact Or.inl rfl
      | notUtf8 => exact Or.inr (Or.inl rfl)
      | content s =>
        refine Or.inr (Or.inr ⟨s, rfl, ?_⟩)
        by_cases h : pyStrip s = ""
        · exact h
        · simp [local_version, h] at hm
    · rintro (rfl | rfl | ⟨s, rfl, hs⟩)
      · exact ⟨_, rfl⟩
      · exact ⟨_, rfl⟩
      · exact ⟨"Version file is empty", by simp [local_version, hs]⟩
  · intro f e he
    cases f with
    | missing =>
      refine ⟨"Failed to read version file", ?_⟩
      simpa [local_version] using he.symm
    | notUtf8 =>
      refine ⟨"Version file is not valid UTF-8", ?_⟩
      simpa [local_version] using he.symm
    | content s =>
      by_cases h : pyStrip s = ""
      · refine ⟨"Version file is empty", ?_⟩
        simp [local_version, h] at he
        exact he.symm
      · simp [local_version, h] at he

/-- C4 witness: a missing file fails with a `fileError`. -/
theorem c4_local_version_file_error_cases_witness :
    ∃ m, local_version false FileReadResult.missing =
      Except.error (VersionError.fileError m) :=
  (c4_local_version_file_error_cases.1 FileReadResult.missing).mpr
    (Or.inl rfl)

/-- C5: `latest_version` fails with a request error whenever the response
body is non-UTF-8 bytes, text that is not valid JSON, valid JSON whose
top-level value is not an object, or a JSON object missing the `version`
key. -/
theorem c5_latest_version_bad_body (debug : Bool) (b : ResponseBody)
    (h : isBadBody b) :
    ∃ m, latest_version debug (HttpResult.success b) =
      Except.error (VersionError.requestError m) := by
  rcases h with rfl | ⟨t, rfl⟩ | ⟨j, rfl, hj⟩ | ⟨fields, rfl, hf⟩
  · exact ⟨_, rfl⟩
  · exact ⟨_, rfl⟩
  · cases j with
    | obj fields => simp [Json.isObj] at hj
    | null => exact ⟨_, rfl⟩
    | bool x => exact ⟨_, rfl⟩
    | num n => exact ⟨_, rfl⟩
    | str s => exact ⟨_, rfl⟩
    | arr l => exact ⟨_, rfl⟩
  · exact ⟨"Response is missing a required field",
      by simp [latest_version, hf]⟩

/-- C5 witness: a non-UTF-8 response body, as in
`test_latest_version_raises_request_error_when_response_is_not_utf_8`. -/
theorem c5_latest_version_bad_body_witness :
    ∃ m, latest_version true (HttpResult.success ResponseBody.notUtf8) =
      Except.error (VersionError.requestError m) :=
  c5_latest_version_bad_body true ResponseBody.notUtf8 (Or.inl rfl)

/-- C6: with debug on, `local_version` returns the fixed dummy identifier
`"0.0.0-0+aaaaaaa"` for every filesystem state, and its result does not
depend on the filesystem state at all (no file I/O is observable). -/
theorem c6_local_version_debug_dummy :
    ∀ f : FileReadResult,
      local_version true f = Except.ok "0.0.0-0+aaaaaaa" ∧
      ∀ g : FileReadResult, local_version true f = local_version true g :=
  fun _ => ⟨rfl, fun _ => rfl⟩

/-- C7: decoding requires all three keys: a JSON object that contains
`version` but is missing the `kind` key or the `data` key makes
`latest_version` fail with a request error. -/
theorem c7_latest_version_requires_all_keys (debug : Bool)
    (fields : List (String × Json)) (v : Json)
    (hv : lookupKey fields "version" = some v)
    (h : lookupKey fields "kind" = none ∨
      lookupKey fields "data" = none) :
    ∃ m, latest_version debug
        (HttpResult.success (ResponseBody.json (Json.obj fields))) =
      Except.error (VersionError.requestError m) := by
  rcases h with hk | hd
  · exact ⟨"Response is missing a required field",
      by simp [latest_version, hv, hk]⟩
  · rcases hk : lookupKey fields "kind" with _ | k
    · exact ⟨"Response is missing a required field",
        by simp [latest_version, hv, hk]⟩
    · exact ⟨"Response is missing a required field",
        by simp [latest_version, hv, hk, hd]⟩

/-- C7 witness: an object with only the `version` key. -/
theorem c7_latest_version_requires_all_keys_witness :
    ∃ m, latest_version true
        (HttpResult.success (ResponseBody.json (Json.obj
          [("version", Json.str "1.2.3-16+7a6c812")]))) =
      Except.error (VersionError.requestError m) :=
  c7_latest_version_requires_all_keys true
    [("version", Json.str "1.2.3-16+7a6c812")] _ rfl (Or.inl rfl)

/-- C8: both resolvers are pure functions of the debug flag and the
backing state, so two successive calls under an unchanged backing state
return equal values or equal errors. -/
theorem c8_resolvers_idempotent :
    (∀ (d : Bool) (f : FileReadResult),
      local_version d f = local_version d f) ∧
    (∀ (d : Bool) (r : HttpResult),
      latest_version d r = latest_version d r) :=
  ⟨fun _ _ => rfl, fun _ _ => rfl⟩

/-- C9: `restart` never propagates a failure: for every outcome of the
three subprocess invocations and every streaming mode it returns
normally, and each failing step has logged its failure (uStreamer
restart always; Janus configure and Janus restart when reached in H264
mode). -/
theorem c9_restart_swallows_failures (b : Argv → ProcOutcome)
    (mode : StreamingMode) :
    (restart b mode).2 = Except.ok () ∧
    (∀ e, b USTREAMER_RESTART_CMD = ProcOutcome.failure e →
      LogEntry.mk LogLevel.error ("Failed to restart ustreamer: " ++ e) ∈
        (restart b mode).1.logs) ∧
    (∀ e, mode = StreamingMode.h264 →
      b CONFIGURE_JANUS_CMD = ProcOutcome.failure e →
      LogEntry.mk LogLevel.error ("Failed to configure janus: " ++ e) ∈
        (restart b mode).1.logs) ∧
    (∀ o e, mode = StreamingMode.h264 →
      b CONFIGURE_JANUS_CMD = ProcOutcome.success o →
      b JANUS_RESTART_CMD = ProcOutcome.failure e →
      LogEntry.mk LogLevel.error ("Failed to restart janus: " ++ e) ∈
        (restart b mode).1.logs) := by
  cases mode <;>
    rcases hu : b USTREAMER_RESTART_CMD with ou | eu <;>
    rcases hc : b CONFIGURE_JANUS_CMD with oc | ec <;>
    rcases hj : b JANUS_RESTART_CMD with oj | ej <;>
    simp [restart, _restart_ustreamer, _restart_janus, check_output,
      logMsg, hu, hc, hj]

/-- C9 witness: with every subprocess failing and mode H264, `restart`
still returns normally and the uStreamer failure is logged. -/
theorem c9_restart_swallows_failures_witness :
    (restart allFail StreamingMode.h264).2 = Except.ok () ∧
    LogEntry.mk LogLevel.error ("Failed to restart ustreamer: " ++ "boom") ∈
      (restart allFail StreamingMode.h264).1.logs :=
  ⟨(c9_restart_swallows_failures allFail StreamingMode.h264).1,
    (c9_restart_swallows_failures allFail StreamingMode.h264).2.1
      "boom" rfl⟩

/-- C10: when the Janus configure step fails, `_restart_janus` invokes
only the configure command (no Janus restart); when it succeeds, the
restart command is invoked right after it; and in MJPEG mode `restart`
invokes only the uStreamer restart command. -/
theorem c10_restart_invocation_order (b : Argv → ProcOutcome) :
    (∀ (t : Trace) (e : String),
      b CONFIGURE_JANUS_CMD = ProcOutcome.failure e →
      (_restart_janus b t).1.invoked = t.invoked ++ [CONFIGURE_JANUS_CMD]) ∧
    (∀ (t : Trace) (o : String),
      b CONFIGURE_JANUS_CMD = ProcOutcome.success o →
      (_restart_janus b t).1.invoked =
        t.invoked ++ [CONFIGURE_JANUS_CMD, JANUS_RESTART_CMD]) ∧
    (restart b StreamingMode.mjpeg).1.invoked = [USTREAMER_RESTART_CMD] := by
  refine ⟨fun t e h => ?_, fun t o h => ?_, ?_⟩
  · simp [_restart_janus, check_output, logMsg, h]
  · rcases hj : b JANUS_RESTART_CMD with oj | ej <;>
      simp [_restart_janus, check_output, logMsg, h, hj]
  · rcases hu : b USTREAMER_RESTART_CMD with ou | eu <;>
      simp [restart, _restart_ustreamer, check_output, logMsg, hu]

/-- C10 witness: with a failing configure step, `_restart_janus` from the
empty trace invokes exactly the configure command. -/
theorem c10_restart_invocation_order_witness :
    (_restart_janus allFail ⟨[], []⟩).1.invoked =
      (⟨[], []⟩ : Trace).invoked ++ [CONFIGURE_JANUS_CMD] :=
  (c10_restart_invocation_order allFail).1 ⟨[], []⟩ "boom" rfl
